import Mathlib

/-!
Shallow embedding of the format-selection core of the DLYT batch downloader
(`src/main.rs`).  The external processes (`yt-dlp -J` metadata probe, URL
parsing by the `url` crate) are modelled as oracle inputs: a `ProbeOutcome`
stands for what one invocation of the metadata probe produced, and each
input line carries the host that URL parsing would extract.  Everything
downstream of those oracles — the format scan, the throttle classification,
the selector, the per-line routing and the output-directory mapping — is
translated directly from the Rust source.
-/

namespace DLYT

/-- One entry of the probed "formats" array (§ `extract_formats`, main.rs
lines 92-96).  Every field is optional because the Rust code reads each JSON
field with `unwrap_or` defaults: missing `format_id`/`ext`/`vcodec` become
`""` and a missing (or non-integer) `height` becomes `0`. -/
structure FormatDescriptor where
  format_id : Option String
  ext : Option String
  height : Option Nat
  vcodec : Option String
deriving DecidableEq

/-- Field access with the `unwrap_or("")` default of main.rs line 93. -/
def fdId (f : FormatDescriptor) : String := f.format_id.getD ""

/-- Field access with the `unwrap_or("")` default of main.rs line 94. -/
def fdExt (f : FormatDescriptor) : String := f.ext.getD ""

/-- Field access with the `unwrap_or(0)` default of main.rs line 95. -/
def fdHeight (f : FormatDescriptor) : Nat := f.height.getD 0

/-- Field access with the `unwrap_or("")` default of main.rs line 96. -/
def fdVcodec (f : FormatDescriptor) : String := f.vcodec.getD ""

/-- The mutable loop state of `extract_formats` (main.rs lines 86-90):
`has_mp4_1080`, `best_height`, `best_id`, `best_ext`, `best_vcodec`. -/
structure ScanState where
  has_mp4_1080 : Bool
  best_height : Nat
  best_id : String
  best_ext : String
  best_vcodec : String
deriving DecidableEq

/-- Initial loop state of `extract_formats`: flag `false`, height `0`,
empty strings (main.rs lines 86-90). -/
def initScan : ScanState := ⟨false, 0, "", "", ""⟩

/-- One iteration of the `for f in formats` loop (main.rs lines 92-108):
first the mp4-under-1080 flag update (`ext == "mp4" && height <= 1080 &&
height > 0`), then the best-descriptor update (`vcodec != "none" &&
height > best_height`). -/
def scanStep (s : ScanState) (f : FormatDescriptor) : ScanState :=
  let s1 := if fdExt f = "mp4" ∧ fdHeight f ≤ 1080 ∧ 0 < fdHeight f then
    { s with has_mp4_1080 := true } else s
  if fdVcodec f ≠ "none" ∧ s1.best_height < fdHeight f then
    { s1 with
      best_height := fdHeight f
      best_id := fdId f
      best_ext := fdExt f
      best_vcodec := fdVcodec f }
  else s1

/-- The whole scan loop of `extract_formats` over a formats list. -/
def scanFormats (fs : List FormatDescriptor) : ScanState :=
  fs.foldl scanStep initScan

/-- Byte-wise string-start test, mirroring Rust `str::starts_with`
(the strings involved are ASCII, so characters coincide with bytes). -/
def listStarts : List Char → List Char → Bool
  | [], _ => true
  | _ :: _, [] => false
  | p :: ps, t :: ts => p == t && listStarts ps ts

/-- Substring containment, mirroring Rust `str::contains`. -/
def listHasSub (p : List Char) : List Char → Bool
  | [] => listStarts p []
  | t :: ts => listStarts p (t :: ts) || listHasSub p ts

/-- Rust `s.starts_with(pat)` on strings. -/
def strStarts (s pat : String) : Bool := listStarts pat.toList s.toList

/-- Rust `s.contains(pat)` on strings. -/
def strContainsSub (s pat : String) : Bool := listHasSub pat.toList s.toList

/-- The known-throttled identifier set of main.rs line 110
(`matches!(best_id.as_str(), "313" | "248" | "271" | "308" | "315")`). -/
def throttledIds : List String := ["313", "248", "271", "308", "315"]

/-- The throttle classification of main.rs lines 110-111: the id is one of
the known-throttled identifiers, or the container is webm and the video
codec starts with vp9 or av01. -/
def throttleRule (i e v : String) : Bool :=
  (i == "313" || i == "248" || i == "271" || i == "308" || i == "315")
  || (e == "webm" && (strStarts v "vp9" || strStarts v "av01"))

/-- The pure part of `extract_formats` (main.rs lines 86-113): scan the
formats list and classify the best descriptor, returning
`(has_mp4_1080, best_is_throttled)`. -/
def extractFromList (fs : List FormatDescriptor) : Bool × Bool :=
  let s := scanFormats fs
  (s.has_mp4_1080, throttleRule s.best_id s.best_ext s.best_vcodec)

/-- What one invocation of `yt-dlp -J url` produced, as seen by
`extract_formats` (main.rs lines 74-84): the process exited non-zero, or its
stdout was unparsable JSON, or the JSON had no "formats" array, or it
yielded a formats list. -/
inductive ProbeOutcome where
  | exitFailure
  | parseError
  | missingFormats
  | success (formats : List FormatDescriptor)
deriving DecidableEq

/-- `extract_formats` (main.rs lines 74-114).  A non-zero exit status
returns `Ok((false, false))` (line 77); unparsable JSON propagates a
serde error through `?` (line 80); a payload without a "formats" array
becomes the `invalid formats` error (line 84); otherwise the list is
scanned. -/
def extract_formats : ProbeOutcome → Except String (Bool × Bool)
  | .exitFailure => .ok (false, false)
  | .parseError => .error "json parse error"
  | .missingFormats => .error "invalid formats"
  | .success fs => .ok (extractFromList fs)

/-- The `(format_str, warn_throttled, downgraded)` triple returned by the
selection functions (main.rs lines 116-145). -/
structure SelectionOutcome where
  formatExpression : String
  warnThrottled : Bool
  downgraded : Bool
deriving DecidableEq

/-- The mp4-capped format expression literal of main.rs lines 125 and 139. -/
def mp4CappedExpr : String :=
  "bestvideo[ext=mp4][height<=1080]+bestaudio[ext=m4a]/best[ext=mp4]"

/-- `select_format` (main.rs lines 116-132).  Probes the URL via
`extract_formats` (propagating its error with `?`), then: force-best
returns `("bestvideo+bestaudio", best_is_throttled, false)`; a throttled
best with an mp4-under-1080 alternative returns the mp4-capped expression
with the downgrade flag; otherwise `("bestvideo+bestaudio/best", false,
false)`. -/
def select_format (probe : ProbeOutcome) (force_best_quality : Bool) :
    Except String SelectionOutcome :=
  match extract_formats probe with
  | .error e => .error e
  | .ok (has_mp4_1080, best_is_throttled) =>
    if force_best_quality then
      .ok ⟨"bestvideo+bestaudio", best_is_throttled, false⟩
    else if best_is_throttled && has_mp4_1080 then
      .ok ⟨mp4CappedExpr, false, true⟩
    else
      .ok ⟨"bestvideo+bestaudio/best", false, false⟩

/-- `select_format_without_probe` (main.rs lines 134-145). -/
def select_format_without_probe (force_best_quality : Bool) : SelectionOutcome :=
  if force_best_quality then ⟨"bestvideo+bestaudio/best", false, false⟩
  else ⟨mp4CappedExpr, false, false⟩

/-- The domain test of main.rs line 236:
`domain.contains("youtube.com") || domain.contains("youtu.be")`. -/
def is_youtube (domain : String) : Bool :=
  strContainsSub domain "youtube.com" || strContainsSub domain "youtu.be"

/-- The per-URL format decision of main.rs lines 238-248: YouTube-domain
URLs go through `select_format_without_probe` (when `skip_probe`) or
`select_format`; any other domain gets `"bestvideo+bestaudio/best"` under
`force_best_quality` and `"best"` otherwise, with both flags false. -/
def route_format (domain : String) (skip_probe force_best_quality : Bool)
    (probe : ProbeOutcome) : Except String SelectionOutcome :=
  if is_youtube domain then
    if skip_probe then .ok (select_format_without_probe force_best_quality)
    else select_format probe force_best_quality
  else if force_best_quality then .ok ⟨"bestvideo+bestaudio/best", false, false⟩
  else .ok ⟨"best", false, false⟩

/-- The output-directory mapping of main.rs lines 218-222: the file stem
"default" maps to the base directory itself, any other stem to the joined
subdirectory (`PathBuf::join` modelled as `"/"`-separated concatenation). -/
def output_dir (base_dir file_stem : String) : String :=
  if file_stem = "default" then base_dir else base_dir ++ "/" ++ file_stem

/-- One line of a list file together with its oracle data: `host` is what
`Url::parse(text)` followed by `host_str()` returns (main.rs lines 68-72,
delegated to the external `url` crate), and `probe` is what running the
metadata probe on this URL would produce. -/
structure UrlLine where
  text : String
  host : Option String
  probe : ProbeOutcome

/-- The skip test of main.rs line 230:
`url.trim().is_empty() || url.starts_with('#')`.  A string trims to empty
exactly when every character is whitespace, and `starts_with('#')` checks
the first character, so both are expressed on the character list. -/
def line_skipped (l : UrlLine) : Bool :=
  l.text.toList.all Char.isWhitespace || listStarts ['#'] l.text.toList

/-- One downloader invocation assembled by the per-line loop: the URL, the
chosen format string, the two advisory flags, and the output directory. -/
structure DownloadInvocation where
  url : String
  format_str : String
  warn_throttled : Bool
  downgraded : Bool
  out_dir : String
deriving DecidableEq

/-- The per-line loop of `process_url_files` for one list file (main.rs
lines 228-304): skip blank/comment lines, compute the domain with the
`unwrap_or_default` of line 235, decide the format (a selection error
propagates through `?` and aborts, as in line 242), and emit one downloader
invocation per remaining line, all sharing one output directory. -/
def process_lines (base_dir file_stem : String) (skip_probe force_best_quality : Bool) :
    List UrlLine → Except String (List DownloadInvocation)
  | [] => .ok []
  | l :: rest =>
    if line_skipped l then process_lines base_dir file_stem skip_probe force_best_quality rest
    else
      match route_format (l.host.getD "") skip_probe force_best_quality l.probe with
      | .error e => .error e
      | .ok sel =>
        match process_lines base_dir file_stem skip_probe force_best_quality rest with
        | .error e => .error e
        | .ok cmds =>
          .ok (⟨l.text, sel.formatExpression, sel.warnThrottled, sel.downgraded,
            output_dir base_dir file_stem⟩ :: cmds)

/-- The formats list of spec Scenario 1: a webm/vp9 1080p video track and an
m4a audio-only track. -/
def scenario1Formats : List FormatDescriptor :=
  [⟨some "313", some "webm", some 1080, some "vp9.0"⟩,
   ⟨some "140", some "m4a", some 0, some "none"⟩]

/-- Modelled from the spec wording (§4.1): the maximum `height` over the
descriptors with `videoCodec != "none"` (0 when there is none). -/
def maxEH : List FormatDescriptor → Nat
  | [] => 0
  | f :: rest => if fdVcodec f ≠ "none" then max (fdHeight f) (maxEH rest) else maxEH rest

/-- Eligibility at a target height: `videoCodec != "none"` and `height`
equal to the given maximum. -/
def bestP (M : Nat) (f : FormatDescriptor) : Bool :=
  decide (fdVcodec f ≠ "none" ∧ fdHeight f = M)

/-- Modelled from the spec wording (§4.1, C5): the earliest-seen descriptor
with `videoCodec != "none"` whose height is maximal over all such
descriptors (`none` when no descriptor is eligible). -/
def specBest (fs : List FormatDescriptor) : Option FormatDescriptor :=
  fs.find? (bestP (maxEH fs))

/-- The best-descriptor tracking fields of the scan state, isolated. -/
structure BestState where
  bh : Nat
  bid : String
  bext : String
  bvc : String
deriving DecidableEq

/-- Projection of a scan state onto its best-descriptor fields. -/
def bests (s : ScanState) : BestState :=
  ⟨s.best_height, s.best_id, s.best_ext, s.best_vcodec⟩

/-- The best-descriptor update of one scan iteration, isolated. -/
def bestStep (b : BestState) (f : FormatDescriptor) : BestState :=
  if fdVcodec f ≠ "none" ∧ b.bh < fdHeight f then ⟨fdHeight f, fdId f, fdExt f, fdVcodec f⟩
  else b

/-- The best fields a descriptor would install. -/
def ofDescr (f : FormatDescriptor) : BestState :=
  ⟨fdHeight f, fdId f, fdExt f, fdVcodec f⟩

/-- Structural decidable equality for `Except`, so that concrete runs of the
fallible functions can be checked by `decide`. -/
def exceptDecEq {ε α : Type} [DecidableEq ε] [DecidableEq α] : DecidableEq (Except ε α)
  | .error a, .error b =>
    if h : a = b then .isTrue (by rw [h]) else .isFalse (by intro hc; cases hc; exact h rfl)
  | .error _, .ok _ => .isFalse (by intro hc; cases hc)
  | .ok _, .error _ => .isFalse (by intro hc; cases hc)
  | .ok a, .ok b =>
    if h : a = b then .isTrue (by rw [h]) else .isFalse (by intro hc; cases hc; exact h rfl)

instance {ε α : Type} [DecidableEq ε] [DecidableEq α] : DecidableEq (Except ε α) := exceptDecEq

/-- One scan iteration changes the mp4 flag exactly by or-ing in the
mp4-under-1080 test of the current descriptor. -/
lemma has_scanStep (s : ScanState) (f : FormatDescriptor) :
    (scanStep s f).has_mp4_1080 =
      (s.has_mp4_1080 || decide (fdExt f = "mp4" ∧ fdHeight f ≤ 1080 ∧ 0 < fdHeight f)) := by
  unfold scanStep
  by_cases h1 : fdExt f = "mp4" ∧ fdHeight f ≤ 1080 ∧ 0 < fdHeight f <;>
    simp only [h1, if_true, if_false, decide_eq_true_eq] <;>
    by_cases h2 : fdVcodec f ≠ "none" ∧ s.best_height < fdHeight f <;>
    simp [h1, h2]

/-- One scan iteration acts on the best-descriptor fields exactly as
`bestStep`. -/
lemma bests_scanStep (s : ScanState) (f : FormatDescriptor) :
    bests (scanStep s f) = bestStep (bests s) f := by
  unfold scanStep bestStep bests
  by_cases h1 : fdExt f = "mp4" ∧ fdHeight f ≤ 1080 ∧ 0 < fdHeight f <;>
    simp only [h1, if_true, if_false] <;>
    by_cases h2 : fdVcodec f ≠ "none" ∧ s.best_height < fdHeight f <;>
    simp [h1, h2]

/-- The scan fold transports to the isolated best-descriptor fold. -/
lemma bests_foldl (fs : List FormatDescriptor) : ∀ s : ScanState,
    bests (fs.foldl scanStep s) = fs.foldl bestStep (bests s) := by
  induction fs with
  | nil => intro s; rfl
  | cons f rest ih =>
    intro s
    rw [List.foldl_cons, List.foldl_cons, ih, bests_scanStep]

/-- The scan fold computes the mp4 flag as an `any` over the list. -/
lemma has_foldl (fs : List FormatDescriptor) : ∀ s : ScanState,
    (fs.foldl scanStep s).has_mp4_1080 =
      (s.has_mp4_1080 ||
        fs.any (fun f => decide (fdExt f = "mp4" ∧ fdHeight f ≤ 1080 ∧ 0 < fdHeight f))) := by
  induction fs with
  | nil => intro s; simp
  | cons f rest ih =>
    intro s
    rw [List.foldl_cons, ih, has_scanStep]
    simp [Bool.or_assoc]

/-- If every eligible height in the list is at most the accumulated best
height, the best-descriptor fold leaves the accumulator unchanged. -/
lemma bestFold_stable (fs : List FormatDescriptor) : ∀ b : BestState,
    maxEH fs ≤ b.bh → fs.foldl bestStep b = b := by
  induction fs with
  | nil => intro b _; rfl
  | cons f rest ih =>
    intro b hb
    by_cases he : fdVcodec f ≠ "none"
    · have hM : max (fdHeight f) (maxEH rest) ≤ b.bh := by
        simpa [maxEH, he] using hb
      have h1 : fdHeight f ≤ b.bh := le_trans (le_max_left _ _) hM
      have h2 : maxEH rest ≤ b.bh := le_trans (le_max_right _ _) hM
      have hstep : bestStep b f = b := by
        unfold bestStep
        rw [if_neg]
        rintro ⟨_, hlt⟩
        exact absurd hlt (not_lt.mpr h1)
      rw [List.foldl_cons, hstep]
      exact ih b h2
    · have h2 : maxEH rest ≤ b.bh := by simpa [maxEH, he] using hb
      have hstep : bestStep b f = b := by
        unfold bestStep
        rw [if_neg]
        rintro ⟨hne, _⟩
        exact he hne
      rw [List.foldl_cons, hstep]
      exact ih b h2

/-- Unfolding of `maxEH` on a cons cell with an eligible head. -/
lemma maxEH_cons_pos (f : FormatDescriptor) (rest : List FormatDescriptor)
    (he : fdVcodec f ≠ "none") :
    maxEH (f :: rest) = max (fdHeight f) (maxEH rest) := by
  simp [maxEH, he]

/-- Unfolding of `maxEH` on a cons cell with an ineligible head. -/
lemma maxEH_cons_neg (f : FormatDescriptor) (rest : List FormatDescriptor)
    (he : fdVcodec f = "none") :
    maxEH (f :: rest) = maxEH rest := by
  simp [maxEH, he]

/-- If some eligible height in the list exceeds the accumulated best height,
the best-descriptor fold ends at the earliest-seen eligible descriptor whose
height is the eligible maximum. -/
lemma bestFold_finds (fs : List FormatDescriptor) : ∀ b : BestState, ∀ d : FormatDescriptor,
    b.bh < maxEH fs → fs.find? (bestP (maxEH fs)) = some d →
    fs.foldl bestStep b = ofDescr d := by
  induction fs with
  | nil => intro b d hb _; simp [maxEH] at hb
  | cons f rest ih =>
    intro b d hb hfind
    by_cases he : fdVcodec f ≠ "none"
    · have hM : maxEH (f :: rest) = max (fdHeight f) (maxEH rest) := maxEH_cons_pos f rest he
      by_cases hge : maxEH rest ≤ fdHeight f
      · -- the head attains the eligible maximum, so it is found and installed
        have hMf : maxEH (f :: rest) = fdHeight f := by rw [hM]; exact max_eq_left hge
        have hpf : bestP (maxEH (f :: rest)) f = true := by
          simp [bestP, he, hMf]
        rw [List.find?_cons_of_pos _ hpf] at hfind
        have hd : f = d := by injection hfind
        subst hd
        have hbf : b.bh < fdHeight f := by rw [hMf] at hb; exact hb
        have hstep : bestStep b f = ofDescr f := by
          unfold bestStep ofDescr
          rw [if_pos ⟨he, hbf⟩]
        rw [List.foldl_cons, hstep]
        exact bestFold_stable rest (ofDescr f) hge
      · -- the maximum lies strictly beyond the head
        push_neg at hge
        have hMr : maxEH (f :: rest) = maxEH rest := by
          rw [hM]; exact max_eq_right (le_of_lt hge)
        have hpf : ¬ (bestP (maxEH (f :: rest)) f = true) := by
          simp only [bestP, decide_eq_true_eq, not_and]
          intro _
          rw [hMr]
          exact Nat.ne_of_lt hge
        rw [List.find?_cons_of_neg _ hpf, hMr] at hfind
        rw [hMr] at hb
        rcases le_or_lt (fdHeight f) b.bh with hle | hlt
        · have hstep : bestStep b f = b := by
            unfold bestStep
            rw [if_neg]
            rintro ⟨_, h2⟩
            exact absurd h2 (not_lt.mpr hle)
          rw [List.foldl_cons, hstep]
          exact ih b d hb hfind
        · have hstep : bestStep b f = ofDescr f := by
            unfold bestStep ofDescr
            rw [if_pos ⟨he, hlt⟩]
          rw [List.foldl_cons, hstep]
          exact ih (ofDescr f) d hge hfind
    · -- ineligible head changes nothing and cannot be found
      rw [not_not] at he
      have hMr : maxEH (f :: rest) = maxEH rest := maxEH_cons_neg f rest he
      have hpf : ¬ (bestP (maxEH (f :: rest)) f = true) := by
        simp [bestP, he]
      rw [List.find?_cons_of_neg _ hpf, hMr] at hfind
      rw [hMr] at hb
      have hstep : bestStep b f = b := by
        unfold bestStep
        rw [if_neg]
        rintro ⟨hne, _⟩
        exact hne he
      rw [List.foldl_cons, hstep]
      exact ih b d hb hfind

/-- The best fields recorded by the scan at the end of the run are those of the
earliest-seen maximal-height eligible descriptor, when one of positive
height exists. -/
lemma scanFormats_bests (fs : List FormatDescriptor) (d : FormatDescriptor)
    (hpos : 0 < maxEH fs) (hfind : specBest fs = some d) :
    bests (scanFormats fs) = ofDescr d := by
  unfold scanFormats
  rw [bests_foldl fs initScan]
  exact bestFold_finds fs (bests initScan) d hpos hfind

/-- If every eligible descriptor has height 0 then the eligible maximum is 0. -/
lemma maxEH_zero_of (fs : List FormatDescriptor)
    (h : ∀ f ∈ fs, fdVcodec f ≠ "none" → fdHeight f = 0) : maxEH fs = 0 := by
  induction fs with
  | nil => rfl
  | cons f rest ih =>
    have hrest : maxEH rest = 0 := ih (fun g hg => h g (List.mem_cons_of_mem f hg))
    by_cases he : fdVcodec f ≠ "none"
    · rw [maxEH_cons_pos f rest he, h f (List.mem_cons_self f rest) he, hrest]
      simp
    · rw [not_not] at he
      rw [maxEH_cons_neg f rest he, hrest]

/-- The best-descriptor fold never records the video codec "none" when the
accumulator does not hold it. -/
lemma bestFold_vcodec (fs : List FormatDescriptor) : ∀ b : BestState,
    b.bvc ≠ "none" → (fs.foldl bestStep b).bvc ≠ "none" := by
  induction fs with
  | nil => intro b hb; exact hb
  | cons f rest ih =>
    intro b hb
    rw [List.foldl_cons]
    by_cases hc : fdVcodec f ≠ "none" ∧ b.bh < fdHeight f
    · have hstep : bestStep b f = ⟨fdHeight f, fdId f, fdExt f, fdVcodec f⟩ := by
        unfold bestStep
        rw [if_pos hc]
      rw [hstep]
      exact ih _ hc.1
    · have hstep : bestStep b f = b := by
        unfold bestStep
        rw [if_neg hc]
      rw [hstep]
      exact ih b hb

/-- The throttle classification as a proposition: known-throttled id, or
webm container with a vp9/av01 codec. -/
lemma throttleRule_iff (i e v : String) :
    throttleRule i e v = true ↔
      (i ∈ throttledIds ∨
        (e = "webm" ∧ (strStarts v "vp9" = true ∨ strStarts v "av01" = true))) := by
  simp only [throttleRule, throttledIds, Bool.or_eq_true, Bool.and_eq_true, beq_iff_eq,
    List.mem_cons, List.not_mem_nil, or_false]
  tauto

/-- The throttled flag of the probe summary is the throttle rule applied to
the recorded best fields. -/
lemma extract_snd (fs : List FormatDescriptor) :
    (extractFromList fs).2 =
      throttleRule (scanFormats fs).best_id (scanFormats fs).best_ext
        (scanFormats fs).best_vcodec := rfl

/-- The 313/webm/vp9 descriptor of Scenario 1, the classified best. -/
def descr313 : FormatDescriptor := ⟨some "313", some "webm", some 1080, some "vp9.0"⟩

/-- A formats list holding only an audio-only track. -/
def audioOnlyFormats : List FormatDescriptor :=
  [⟨some "140", some "m4a", some 0, some "none"⟩]

/-- C4: for every probed formats list whose best-height descriptor exists
(some descriptor with `videoCodec ≠ "none"` has positive height, and `d` is
the earliest-seen such descriptor of maximal height, i.e. the one the scan
classifies as best), the Prober sets `bestIsThrottled = true` if and only
if the id of `d` is a known-throttled identifier, or the container of `d`
is "webm" and its video codec starts with "vp9" or "av01". -/
theorem C4_throttle_iff (fs : List FormatDescriptor) (d : FormatDescriptor)
    (hpos : 0 < maxEH fs) (hfind : specBest fs = some d) :
    ((extractFromList fs).2 = true ↔
      (fdId d ∈ throttledIds ∨
        (fdExt d = "webm" ∧
          (strStarts (fdVcodec d) "vp9" = true ∨ strStarts (fdVcodec d) "av01" = true)))) := by
  have hb := scanFormats_bests fs d hpos hfind
  have hid : (scanFormats fs).best_id = fdId d := congrArg BestState.bid hb
  have hext : (scanFormats fs).best_ext = fdExt d := congrArg BestState.bext hb
  have hvc : (scanFormats fs).best_vcodec = fdVcodec d := congrArg BestState.bvc hb
  rw [extract_snd, hid, hext, hvc]
  exact throttleRule_iff (fdId d) (fdExt d) (fdVcodec d)

/-- Closed instance of C4 on the Scenario 1 formats list, whose best
descriptor is the 313/webm/vp9 one. -/
theorem C4_witness :
    0 < maxEH scenario1Formats ∧ specBest scenario1Formats = some descr313 ∧
    ((extractFromList scenario1Formats).2 = true ↔
      (fdId descr313 ∈ throttledIds ∨
        (fdExt descr313 = "webm" ∧
          (strStarts (fdVcodec descr313) "vp9" = true ∨
            strStarts (fdVcodec descr313) "av01" = true)))) :=
  ⟨by decide, by decide, C4_throttle_iff scenario1Formats descr313 (by decide) (by decide)⟩

/-- C5: for a probed formats list in which some descriptor with
`videoCodec ≠ "none"` has positive height (so the scan classifies a best
descriptor at all), the recorded best fields are exactly those of the
earliest-seen descriptor with `videoCodec ≠ "none"` whose height is maximal
over all such descriptors (ties keep the earliest, by the first-match
semantics of `specBest`); moreover any classified best has
`videoCodec ≠ "none"`, and for every list whatsoever the recorded best
video codec is never "none". -/
theorem C5_best_selection (fs : List FormatDescriptor) (d : FormatDescriptor)
    (hpos : 0 < maxEH fs) (hfind : specBest fs = some d) :
    (bests (scanFormats fs) = ofDescr d ∧ fdVcodec d ≠ "none") ∧
    ∀ gs : List FormatDescriptor, (scanFormats gs).best_vcodec ≠ "none" := by
  refine ⟨⟨scanFormats_bests fs d hpos hfind, ?_⟩, ?_⟩
  · have hf2 : fs.find? (bestP (maxEH fs)) = some d := hfind
    have hp := List.find?_some hf2
    simp only [bestP, decide_eq_true_eq] at hp
    exact hp.1
  · intro gs
    have hvc : (bests (scanFormats gs)).bvc ≠ "none" := by
      unfold scanFormats
      rw [bests_foldl gs initScan]
      exact bestFold_vcodec gs (bests initScan) (by decide)
    exact hvc

/-- Closed instance of C5 on the Scenario 1 formats list. -/
theorem C5_witness :
    0 < maxEH scenario1Formats ∧ specBest scenario1Formats = some descr313 ∧
    ((bests (scanFormats scenario1Formats) = ofDescr descr313 ∧
        fdVcodec descr313 ≠ "none") ∧
      ∀ gs : List FormatDescriptor, (scanFormats gs).best_vcodec ≠ "none") :=
  ⟨by decide, by decide, C5_best_selection scenario1Formats descr313 (by decide) (by decide)⟩

/-- C6: the mp4 flag of the probe summary is true exactly when the list holds a
descriptor with container "mp4" and height in (0, 1080]; the condition
mentions neither the codec nor the throttle classification. -/
theorem C6_mp4_flag (fs : List FormatDescriptor) :
    ((extractFromList fs).1 = true ↔
      ∃ f ∈ fs, fdExt f = "mp4" ∧ 0 < fdHeight f ∧ fdHeight f ≤ 1080) := by
  have h1 : (extractFromList fs).1 = (scanFormats fs).has_mp4_1080 := rfl
  rw [h1]
  unfold scanFormats
  rw [has_foldl fs initScan]
  simp only [initScan, Bool.false_or, List.any_eq_true, decide_eq_true_eq]
  constructor
  · rintro ⟨f, hf, hext, hle, hpos⟩
    exact ⟨f, hf, hext, hpos, hle⟩
  · rintro ⟨f, hf, hext, hpos, hle⟩
    exact ⟨f, hf, hext, hle, hpos⟩

/-- C10: a probed formats list holding no descriptor with
`videoCodec ≠ "none"` and positive height leaves the best fields at their
initial empty values, and the empty values match neither the throttled-id
set nor the webm/vp9/av01 rule, so `bestIsThrottled = false`. -/
theorem C10_no_eligible_unthrottled (fs : List FormatDescriptor)
    (h : ∀ f ∈ fs, fdVcodec f ≠ "none" → fdHeight f = 0) :
    bests (scanFormats fs) = ⟨0, "", "", ""⟩ ∧ (extractFromList fs).2 = false := by
  have hmax : maxEH fs = 0 := maxEH_zero_of fs h
  have hb : bests (scanFormats fs) = ⟨0, "", "", ""⟩ := by
    unfold scanFormats
    rw [bests_foldl fs initScan]
    exact bestFold_stable fs (bests initScan) (by rw [hmax]; exact Nat.zero_le _)
  refine ⟨hb, ?_⟩
  have hid : (scanFormats fs).best_id = "" := congrArg BestState.bid hb
  have hext : (scanFormats fs).best_ext = "" := congrArg BestState.bext hb
  have hvc : (scanFormats fs).best_vcodec = "" := congrArg BestState.bvc hb
  rw [extract_snd, hid, hext, hvc]
  rfl

/-- Closed instance of C10 on an audio-only formats list. -/
theorem C10_witness :
    (∀ f ∈ audioOnlyFormats, fdVcodec f ≠ "none" → fdHeight f = 0) ∧
    (bests (scanFormats audioOnlyFormats) = ⟨0, "", "", ""⟩ ∧
      (extractFromList audioOnlyFormats).2 = false) :=
  ⟨by decide, C10_no_eligible_unthrottled audioOnlyFormats (by decide)⟩

/-- C2 counterexample: on the Scenario 1 probe result (no mp4 under 1080,
throttled best) with forceBestQuality false, the Selector returns
`warnThrottled = false`, not the claimed `warnThrottled = true`. -/
theorem C2_counterexample :
    extractFromList scenario1Formats = (false, true) ∧
    select_format (.success scenario1Formats) false =
      .ok ⟨"bestvideo+bestaudio/best", false, false⟩ ∧
    select_format (.success scenario1Formats) false ≠
      .ok ⟨"bestvideo+bestaudio/best", true, false⟩ :=
  ⟨by decide, rfl, by decide⟩

/-- C2 (amended): for every probed formats list summarised as
`hasMp4Under1080 = false, bestIsThrottled = true`, the Selector with
forceBestQuality false returns `formatExpression = "bestvideo+bestaudio/best"`,
`warnThrottled = false` and `downgraded = false`. -/
theorem C2_throttled_no_mp4 (fs : List FormatDescriptor)
    (h : extractFromList fs = (false, true)) :
    select_format (.success fs) false = .ok ⟨"bestvideo+bestaudio/best", false, false⟩ := by
  simp [select_format, extract_formats, h]

/-- Closed instance of C2 (amended) on the Scenario 1 formats list. -/
theorem C2_witness :
    extractFromList scenario1Formats = (false, true) ∧
    select_format (.success scenario1Formats) false =
      .ok ⟨"bestvideo+bestaudio/best", false, false⟩ :=
  ⟨by decide, C2_throttled_no_mp4 scenario1Formats (by decide)⟩

/-- C7: with forceBestQuality true, a successful probe yields
`"bestvideo+bestaudio"` with `warnThrottled` equal to the probed
`bestIsThrottled` and `downgraded = false`, while the no-probe path yields
`"bestvideo+bestaudio/best"` with both flags false. -/
theorem C7_force_best (p : ProbeOutcome) (pr : Bool × Bool)
    (h : extract_formats p = .ok pr) :
    select_format p true = .ok ⟨"bestvideo+bestaudio", pr.2, false⟩ ∧
    select_format_without_probe true = ⟨"bestvideo+bestaudio/best", false, false⟩ := by
  obtain ⟨a, b⟩ := pr
  constructor
  · unfold select_format
    rw [h]
    rfl
  · rfl

/-- Closed instance of C7 on the Scenario 1 probe outcome. -/
theorem C7_witness :
    extract_formats (.success scenario1Formats) = .ok (false, true) ∧
    select_format (.success scenario1Formats) true =
      .ok ⟨"bestvideo+bestaudio", true, false⟩ ∧
    select_format_without_probe true = ⟨"bestvideo+bestaudio/best", false, false⟩ :=
  ⟨by decide,
    (C7_force_best (.success scenario1Formats) (false, true) (by decide)).1,
    (C7_force_best (.success scenario1Formats) (false, true) (by decide)).2⟩

/-- C8: the Selector is a pure function — equal probe inputs and equal
force flags produce equal SelectionOutcomes, on both the probed and the
no-probe path. -/
theorem C8_deterministic (p1 p2 : ProbeOutcome) (f1 f2 : Bool)
    (hp : p1 = p2) (hf : f1 = f2) :
    select_format p1 f1 = select_format p2 f2 ∧
    select_format_without_probe f1 = select_format_without_probe f2 := by
  subst hp
  subst hf
  exact ⟨rfl, rfl⟩

/-- Closed instance of C8 at a concrete repeated invocation. -/
theorem C8_witness :
    (ProbeOutcome.success scenario1Formats = ProbeOutcome.success scenario1Formats) ∧
    (false = false) ∧
    select_format (.success scenario1Formats) false =
      select_format (.success scenario1Formats) false ∧
    select_format_without_probe false = select_format_without_probe false :=
  ⟨rfl, rfl,
    (C8_deterministic (.success scenario1Formats) (.success scenario1Formats) false false rfl rfl).1,
    (C8_deterministic (.success scenario1Formats) (.success scenario1Formats) false false rfl rfl).2⟩

/-- C3 counterexample: the host "music.youtube.com" is neither
"www.youtube.com" nor "youtu.be", yet the code treats it as the
probed/throttle-aware domain (the domain test is substring containment,
not host equality), and the outcome it receives on the skip-probe path is
not the claimed bypass expression. -/
theorem C3_counterexample :
    ("music.youtube.com" ≠ "www.youtube.com" ∧ "music.youtube.com" ≠ "youtu.be") ∧
    is_youtube "music.youtube.com" = true ∧
    route_format "music.youtube.com" true false .exitFailure =
      .ok (select_format_without_probe false) ∧
    (select_format_without_probe false).formatExpression ≠ "best" ∧
    (select_format_without_probe false).formatExpression ≠ "bestvideo+bestaudio/best" :=
  ⟨by decide, by decide, rfl, by decide, by decide⟩

/-- C3 (amended): the probed/throttle-aware path is taken exactly when the
URL host contains "youtube.com" or "youtu.be" as a substring; a host
containing neither bypasses Prober and Selector and receives
`"bestvideo+bestaudio/best"` when forceBestQuality is true and `"best"`
otherwise, with no warnings and no downgrade flag. -/
theorem C3_domain_routing (domain : String) (skip force : Bool) (p : ProbeOutcome) :
    (strContainsSub domain "youtube.com" = false →
      strContainsSub domain "youtu.be" = false →
      route_format domain skip force p =
        .ok ⟨if force then "bestvideo+bestaudio/best" else "best", false, false⟩) ∧
    ((strContainsSub domain "youtube.com" = true ∨
        strContainsSub domain "youtu.be" = true) →
      route_format domain skip force p =
        (if skip then .ok (select_format_without_probe force)
         else select_format p force)) := by
  constructor
  · intro h1 h2
    have hyt : is_youtube domain = false := by simp [is_youtube, h1, h2]
    unfold route_format
    rw [if_neg (by simp [hyt])]
    cases force <;> simp
  · intro h
    have hyt : is_youtube domain = true := by
      rcases h with h | h <;> simp [is_youtube, h]
    unfold route_format
    rw [if_pos hyt]

/-- Closed instance of C3 (amended): a plain host bypasses with the
force-best expression, and the host "youtu.be" takes the probed path. -/
theorem C3_witness :
    strContainsSub "example.com" "youtube.com" = false ∧
    strContainsSub "example.com" "youtu.be" = false ∧
    route_format "example.com" false true .exitFailure =
      .ok ⟨"bestvideo+bestaudio/best", false, false⟩ ∧
    strContainsSub "youtu.be" "youtu.be" = true ∧
    route_format "youtu.be" false false .exitFailure = select_format .exitFailure false :=
  ⟨by decide, by decide,
    (C3_domain_routing "example.com" false true .exitFailure).1 (by decide) (by decide),
    by decide,
    (C3_domain_routing "youtu.be" false false .exitFailure).2 (Or.inr (by decide))⟩

/-- C1 counterexample: a probe that exits non-zero (for a recognized-domain
URL, forceBestQuality false) does not produce the no-probe default outcome:
the code returns `"bestvideo+bestaudio/best"` while the no-probe default is
the mp4-capped expression; and a probe whose output is unparsable JSON does
not degrade at all — it yields an error. -/
theorem C1_counterexample :
    select_format .exitFailure false =
      .ok ⟨"bestvideo+bestaudio/best", false, false⟩ ∧
    select_format_without_probe false = ⟨mp4CappedExpr, false, false⟩ ∧
    select_format .exitFailure false ≠ .ok (select_format_without_probe false) ∧
    select_format .parseError false = .error "json parse error" :=
  ⟨rfl, rfl, by decide, rfl⟩

/-- C1 (amended): a probe that exits non-zero degrades to the summary
`(false, false)` — so selection returns `"bestvideo+bestaudio"` under
forceBestQuality and `"bestvideo+bestaudio/best"` otherwise, and the line
is still processed — while a probe whose output is unparsable JSON or lacks
a "formats" field produces an error that propagates and aborts processing
of the list. -/
theorem C1_probe_failure_modes :
    (∀ force, select_format .exitFailure force =
        .ok (if force then ⟨"bestvideo+bestaudio", false, false⟩
             else ⟨"bestvideo+bestaudio/best", false, false⟩)) ∧
    (∀ force, select_format .parseError force = .error "json parse error") ∧
    (∀ force, select_format .missingFormats force = .error "invalid formats") ∧
    (∀ base stem force l rest, line_skipped l = false →
      is_youtube (l.host.getD "") = true → l.probe = .parseError →
      process_lines base stem false force (l :: rest) = .error "json parse error") ∧
    (∀ base stem l rest cmds, line_skipped l = false →
      is_youtube (l.host.getD "") = true → l.probe = .exitFailure →
      process_lines base stem false false rest = .ok cmds →
      process_lines base stem false false (l :: rest) =
        .ok (⟨l.text, "bestvideo+bestaudio/best", false, false,
          output_dir base stem⟩ :: cmds)) := by
  refine ⟨fun force => by cases force <;> rfl, fun force => rfl, fun force => rfl, ?_, ?_⟩
  · intro base stem force l rest hskip hyt hp
    have hroute : route_format (l.host.getD "") false force l.probe =
        .error "json parse error" := by
      rw [hp]
      unfold route_format
      rw [if_pos hyt]
      rfl
    simp only [process_lines, hskip, Bool.false_eq_true, if_false, hroute]
  · intro base stem l rest cmds hskip hyt hp hrest
    have hroute : route_format (l.host.getD "") false false l.probe =
        .ok ⟨"bestvideo+bestaudio/best", false, false⟩ := by
      rw [hp]
      unfold route_format
      rw [if_pos hyt]
      rfl
    simp only [process_lines, hskip, Bool.false_eq_true, if_false, hroute, hrest]

/-- A concrete recognized-domain line whose probe exits non-zero. -/
def lineYT : UrlLine := ⟨"https://youtu.be/x", some "youtu.be", .exitFailure⟩

/-- Closed instance of C1 (amended): the non-zero-exit line is processed
and receives `"bestvideo+bestaudio/best"`. -/
theorem C1_witness :
    line_skipped lineYT = false ∧
    is_youtube (lineYT.host.getD "") = true ∧
    lineYT.probe = .exitFailure ∧
    process_lines "videos" "default" false false [] = .ok [] ∧
    process_lines "videos" "default" false false [lineYT] =
      .ok [⟨lineYT.text, "bestvideo+bestaudio/best", false, false,
        output_dir "videos" "default"⟩] :=
  ⟨by decide, by decide, rfl, rfl,
    C1_probe_failure_modes.2.2.2.2 "videos" "default" lineYT [] []
      (by decide) (by decide) rfl rfl⟩

/-- Every downloader invocation emitted for one list file carries that
output directory of the file. -/
lemma process_lines_dirs (base stem : String) (skip force : Bool) :
    ∀ (lines : List UrlLine) (cmds : List DownloadInvocation),
      process_lines base stem skip force lines = .ok cmds →
      ∀ c ∈ cmds, c.out_dir = output_dir base stem := by
  intro lines
  induction lines with
  | nil =>
    intro cmds h
    simp only [process_lines] at h
    injection h with h
    subst h
    intro c hc
    cases hc
  | cons l rest ih =>
    intro cmds h
    simp only [process_lines] at h
    by_cases hs : line_skipped l = true
    · rw [if_pos hs] at h
      exact ih cmds h
    · rw [if_neg hs] at h
      cases hr : route_format (l.host.getD "") skip force l.probe with
      | error e => rw [hr] at h; cases h
      | ok sel =>
        rw [hr] at h
        cases hp : process_lines base stem skip force rest with
        | error e => rw [hp] at h; cases h
        | ok cmds0 =>
          rw [hp] at h
          injection h with h
          subst h
          intro c hc
          rcases List.mem_cons.mp hc with hc | hc
          · rw [hc]
          · exact ih cmds0 hp c hc

/-- C9: for every list file processed to completion, every emitted
downloader invocation uses the one directory determined by the file stem:
the base directory itself when the stem is "default", and the subdirectory
of the base named after the stem otherwise. -/
theorem C9_output_directory (base stem : String) (skip force : Bool)
    (lines : List UrlLine) (cmds : List DownloadInvocation)
    (h : process_lines base stem skip force lines = .ok cmds) :
    (∀ c ∈ cmds, c.out_dir = output_dir base stem) ∧
    (stem = "default" → output_dir base stem = base) ∧
    (stem ≠ "default" → output_dir base stem = base ++ "/" ++ stem) := by
  refine ⟨process_lines_dirs base stem skip force lines cmds h, ?_, ?_⟩
  · intro hd
    simp [output_dir, hd]
  · intro hd
    simp [output_dir, hd]

/-- Concrete lines for the C9 instance: one plain URL and one comment. -/
def c9Lines : List UrlLine :=
  [⟨"https://example.com/a", some "example.com", .exitFailure⟩,
   ⟨"# comment", none, .exitFailure⟩]

/-- The invocations the C9 instance produces. -/
def c9Cmds : List DownloadInvocation :=
  [⟨"https://example.com/a", "best", false, false, output_dir "videos" "music"⟩]

/-- Closed instance of C9 on a two-line file named "music". -/
theorem C9_witness :
    process_lines "videos" "music" false false c9Lines = .ok c9Cmds ∧
    ((∀ c ∈ c9Cmds, c.out_dir = output_dir "videos" "music") ∧
      ("music" = "default" → output_dir "videos" "music" = "videos") ∧
      ("music" ≠ "default" →
        output_dir "videos" "music" = "videos" ++ "/" ++ "music")) :=
  ⟨rfl, C9_output_directory "videos" "music" false false c9Lines c9Cmds rfl⟩

end DLYT
